import Mathlib

/-!
Shallow embedding of the scraping tool layer of the game-recommendation agent
(`src/tools/metacritic.py`).  Pure Python helpers become Lean functions; the
single HTTP GET that each façade operation performs is modelled by an explicit
`Fetch` outcome (success with an already-parsed document, a non-2xx status
error carrying the status code and the rendered exception message, or a
transport-level error carrying its message).  Python `str` is modelled by
`String`, `int` by `Int`, `float` by `Rat` restricted to the decimal literals
`float()` accepts, and `Optional[T]` by `Option T`.  Character-level Python
operations (`str.lower`, `re.sub` character classes, `str.strip`) are modelled
on ASCII, which covers every string the program manipulates.
-/

set_option maxRecDepth 4000

namespace Metacritic

/-- ASCII model of Python `str.lower` on a single character. -/
def charLower (c : Char) : Char :=
  if 65 ≤ c.toNat ∧ c.toNat ≤ 90 then Char.ofNat (c.toNat + 32) else c

/-- ASCII model of Python `str.upper` on a single character. -/
def charUpper (c : Char) : Char :=
  if 97 ≤ c.toNat ∧ c.toNat ≤ 122 then Char.ofNat (c.toNat - 32) else c

/-- Python `s.lower()`. -/
def pyLower (s : String) : String := ⟨s.data.map charLower⟩

/-- Python `s.upper()`. -/
def pyUpper (s : String) : String := ⟨s.data.map charUpper⟩

/-- The character class `\d` of `re` (ASCII model). -/
def isDigitChar (c : Char) : Bool := decide (48 ≤ c.toNat ∧ c.toNat ≤ 57)

/-- Python whitespace stripped by `int()` / `float()` conversion. -/
def isPySpace (c : Char) : Bool :=
  decide (c.toNat = 32 ∨ c.toNat = 9 ∨ c.toNat = 10 ∨ c.toNat = 13 ∨
    c.toNat = 11 ∨ c.toNat = 12)

/-- Strip leading and trailing whitespace, as `int()`/`float()` do. -/
def stripWs (l : List Char) : List Char :=
  ((l.dropWhile isPySpace).reverse.dropWhile isPySpace).reverse

/-- Numeric value of a digit string (most significant digit first). -/
def natOfDigits (l : List Char) : Nat :=
  l.foldl (fun n c => 10 * n + (c.toNat - 48)) 0

/-- Model of Python `int(s)` on strings: optional surrounding whitespace, an
optional sign, then a non-empty run of digits; anything else raises
`ValueError`, modelled as `none`. -/
def pyInt? (s : String) : Option Int :=
  let l := stripWs s.data
  if l.head? = some (Char.ofNat 45) then
    let rest := l.tail
    if rest ≠ [] ∧ rest.all isDigitChar then some (-(natOfDigits rest : Int)) else none
  else if l.head? = some (Char.ofNat 43) then
    let rest := l.tail
    if rest ≠ [] ∧ rest.all isDigitChar then some ((natOfDigits rest : Int)) else none
  else if l ≠ [] ∧ l.all isDigitChar then some ((natOfDigits l : Int)) else none

/-- Decimal core of Python `float(s)` (after sign removal): digits, optionally
split by one dot, with at least one digit present.  Exponent and inf/nan forms
are never produced by the program's score texts and are modelled as absent. -/
def pyFloatCore (l : List Char) : Option Rat :=
  let intPart := l.takeWhile (fun c => c ≠ Char.ofNat 46)
  let rest := l.dropWhile (fun c => c ≠ Char.ofNat 46)
  match rest with
  | [] => if intPart ≠ [] ∧ intPart.all isDigitChar then some ((natOfDigits intPart : Rat)) else none
  | _ :: frac =>
    if (intPart ≠ [] ∨ frac ≠ []) ∧ intPart.all isDigitChar ∧ frac.all isDigitChar then
      some ((natOfDigits intPart : Rat) + (natOfDigits frac : Rat) / ((10 : Rat) ^ frac.length))
    else none

/-- Model of Python `float(s)` for the decimal literals the scraper meets. -/
def pyFloat? (s : String) : Option Rat :=
  let l := stripWs s.data
  if l.head? = some (Char.ofNat 45) then (pyFloatCore l.tail).map (fun q => -q)
  else if l.head? = some (Char.ofNat 43) then pyFloatCore l.tail
  else pyFloatCore l

/-- The guard `not score_text or score_text.lower() in ["tbd", "n/a", ""]`
shared by both score parsers. -/
def isSentinel (s : String) : Bool :=
  s.isEmpty || (pyLower s == "tbd" || pyLower s == "n/a" || pyLower s == "")

/-- Embedding of `_parse_score` (src/tools/metacritic.py:44-51): sentinel
check, then `int(re.sub(r"[^\d]", "", score_text))` with `ValueError`
(raised e.g. when no digit remains) mapped to `None`. -/
def _parse_score (score_text : String) : Option Int :=
  if isSentinel score_text then none
  else pyInt? ⟨score_text.data.filter isDigitChar⟩

/-- Embedding of `_parse_user_score` (src/tools/metacritic.py:54-61):
sentinel check, then `float(score_text)` with failures mapped to `None`. -/
def _parse_user_score (score_text : String) : Option Rat :=
  if isSentinel score_text then none
  else pyFloat? score_text

/-- Python truthiness of an `Optional[int]` value (`None` and `0` are falsy). -/
def truthyInt : Option Int → Bool
  | some n => n != 0
  | none => false

/-- Python truthiness of an `Optional[float]` value (`None` and `0.0` falsy). -/
def truthyRat : Option Rat → Bool
  | some q => q != 0
  | none => false

/-- The `PLATFORM_MAP` table (src/tools/metacritic.py:34-41). -/
def PLATFORM_MAP : List (String × String) :=
  [("pc", "pc"), ("ps5", "playstation-5"), ("ps4", "playstation-4"),
   ("xbox-series-x", "xbox-series-x"), ("xbox-one", "xbox-one"),
   ("switch", "switch")]

/-- `PLATFORM_MAP.get(platform.lower(), platform.lower())`. -/
def platformSlug (platform : String) : String :=
  match PLATFORM_MAP.lookup (pyLower platform) with
  | some v => v
  | none => pyLower platform

/-- Characters kept by the slug filter `re.sub(r"[^a-z0-9-]", "", slug)`. -/
def isSlugChar (c : Char) : Bool :=
  decide ((97 ≤ c.toNat ∧ c.toNat ≤ 122) ∨ (48 ≤ c.toNat ∧ c.toNat ≤ 57) ∨ c.toNat = 45)

/-- `re.sub(r"-+", "-", slug)`: collapse each run of hyphens to one hyphen. -/
def collapseHyphens : List Char → List Char
  | [] => []
  | [c] => [c]
  | a :: b :: rest =>
    if a = Char.ofNat 45 ∧ b = Char.ofNat 45 then collapseHyphens (b :: rest)
    else a :: collapseHyphens (b :: rest)

/-- Python `slug.strip("-")`. -/
def stripHyphens (l : List Char) : List Char :=
  ((l.dropWhile (fun c => c = Char.ofNat 45)).reverse.dropWhile
    (fun c => c = Char.ofNat 45)).reverse

/-- The slug pipeline of `get_game_details` (src/tools/metacritic.py:133-135):
lower-case, spaces to hyphens, drop colons and apostrophes, keep only
`[a-z0-9-]`, collapse hyphen runs, strip outer hyphens. -/
def slugChars (l : List Char) : List Char :=
  stripHyphens (collapseHyphens
    (((((l.map charLower).map (fun c => if c = Char.ofNat 32 then Char.ofNat 45 else c)).filter
          (fun c => c ≠ Char.ofNat 58)).filter
        (fun c => c ≠ Char.ofNat 39)).filter isSlugChar))

/-- String-level slug derivation used by `get_game_details`. -/
def slugify (s : String) : String := ⟨slugChars s.data⟩

/-- Outcome of the single `httpx` GET performed by a façade operation,
together with the already-parsed document on success.  `httpStatusError`
carries `e.response.status_code` and `str(e)`; `transportError` covers the
other `httpx.HTTPError` transport failures and carries `str(e)`. -/
inductive Fetch (α : Type) where
  | success (doc : α)
  | httpStatusError (code : Nat) (msg : String)
  | transportError (msg : String)

/-- One search-result card (selector `[data-testid=search-result]`), after the per-field
`select_one` calls: each field is the stripped text of the first matching
element, or `none` when no selector matched. -/
structure SearchCard where
  title? : Option String
  score? : Option String
  platform? : Option String
deriving DecidableEq

/-- The dict built per search card (src/tools/metacritic.py:95-99). -/
structure SearchRecord where
  title : String
  metascore : Option Int
  platform : String
deriving DecidableEq

/-- The per-card extraction of `search_games`: cards missing a title are
skipped; score and platform degrade independently. -/
def searchRecord? (card : SearchCard) : Option SearchRecord :=
  match card.title? with
  | none => none
  | some t =>
    some { title := t
           metascore := match card.score? with
                        | some s => _parse_score s
                        | none => none
           platform := card.platform?.getD "Unknown" }

/-- One numbered entry of the search output (src/tools/metacritic.py:107-109). -/
def searchLine (i : Nat) (g : SearchRecord) : String :=
  let score_display :=
    if truthyInt g.metascore then "Metascore: " ++ toString (g.metascore.getD 0)
    else "Metascore: TBD"
  toString i ++ ". " ++ g.title ++ "\n   Platform: " ++ g.platform ++ "\n   " ++
    score_display ++ "\n\n"

/-- Embedding of `search_games` (src/tools/metacritic.py:64-116).  The
`platform` parameter is accepted but, as in the source, never read.  Both
`httpx.HTTPStatusError` (from `raise_for_status`) and transport errors are
`httpx.HTTPError`s and hit the first `except` clause. -/
def search_games (query : String) (platform : String)
    (fetch : Fetch (List SearchCard)) : String :=
  match fetch with
  | .success cards =>
    let results := (cards.take 10).filterMap searchRecord?
    if results = [] then
      "No games found matching \x27" ++ query ++ "\x27. Try a different search term."
    else
      "🎮 Search Results for \x27" ++ query ++ "\x27:\n\n" ++
        String.join ((results.enumFrom 1).map (fun p => searchLine p.1 p.2))
  | .httpStatusError _ m => "Error searching for games: " ++ m ++ ". Please try again."
  | .transportError m => "Error searching for games: " ++ m ++ ". Please try again."

/-- The detail page after the per-field `select_one`/`select` calls of
`get_game_details` (src/tools/metacritic.py:147-164). -/
structure DetailPage where
  title? : Option String
  metascore? : Option String
  userScore? : Option String
  summary? : Option String
  release? : Option String
  genres : List String
deriving DecidableEq

/-- The detail URL: `f"https://www.metacritic.com/game/{slug}/"` — a function
of the title alone; the canonicalized platform code is computed by the source
but never embedded in the path. -/
def detailUrl (game_title : String) : String :=
  "https://www.metacritic.com/game/" ++ slugify game_title ++ "/"

/-- The metascore block of the detail output (src/tools/metacritic.py:170-174):
`if metascore:` is Python truthiness, so a score of exactly 0 takes the
`TBD` branch. -/
def detailScoreSection (metascore : Option Int) : String :=
  if truthyInt metascore then
    let m := metascore.getD 0
    let score_emoji := if 75 ≤ m then "🟢" else if 50 ≤ m then "🟡" else "🔴"
    score_emoji ++ " Metascore: " ++ toString m ++ "/100\n"
  else "⚪ Metascore: TBD\n"

/-- Decimal rendering of a parsed user score, standing in for Python's float
`repr` (e.g. `8.5`, `8.0`); only values produced by `pyFloat?` (exact
decimals) reach it. -/
def ratRepr (q : Rat) : String :=
  let sign := if q < 0 then "-" else ""
  let k := (((List.range 18).filter (fun j => (q.den : Nat) ∣ 10 ^ j)).headD 17).max 1
  let scaled := q.num.natAbs * (10 ^ k / q.den)
  let ipart := scaled / 10 ^ k
  let fdigits := toString (scaled % 10 ^ k)
  let fpadded := String.mk (List.replicate (k - fdigits.length) (Char.ofNat 48)) ++ fdigits
  let ftrimmed := String.mk (fpadded.data.reverse.dropWhile (fun c => c = Char.ofNat 48)).reverse
  sign ++ toString ipart ++ "." ++ (if ftrimmed.isEmpty then "0" else ftrimmed)

/-- The success-path output assembly of `get_game_details`
(src/tools/metacritic.py:146-187). -/
def detailBody (game_title url : String) (page : DetailPage) : String :=
  let title_text := page.title?.getD game_title
  let metascore := page.metascore?.bind _parse_score
  let user_score := page.userScore?.bind _parse_user_score
  let summary := page.summary?.getD "No summary available"
  let release_date := page.release?.getD "Unknown"
  let genres := page.genres.take 5
  let out := "🎮 " ++ title_text ++ "\n" ++ String.mk (List.replicate 50 (Char.ofNat 61)) ++ "\n\n"
  let out := out ++ detailScoreSection metascore
  let out := out ++ (if truthyRat user_score then
    "👥 User Score: " ++ ratRepr (user_score.getD 0) ++ "/10\n" else "")
  let out := out ++ "📅 Release Date: " ++ release_date ++ "\n"
  let out := out ++ (if genres ≠ [] then
    "🏷️ Genres: " ++ String.intercalate ", " genres ++ "\n" else "")
  let out := out ++ "\n📝 Summary:\n" ++ String.mk (summary.data.take 500) ++
    (if 500 < summary.length then "..." else "") ++ "\n"
  out ++ "\n🔗 URL: " ++ url

/-- Embedding of `get_game_details` (src/tools/metacritic.py:119-194): the
slug/URL is built from the title; `platform_slug` is computed and unused, as
in the source; a 404 status gets the dedicated "not found" message, other
statuses a generic HTTP message, and transport failures fall through to the
broad `except Exception` clause. -/
def get_game_details (game_title : String) (platform : String)
    (fetch : Fetch DetailPage) : String :=
  let _platform_slug := platformSlug platform
  let url := detailUrl game_title
  match fetch with
  | .success page => detailBody game_title url page
  | .httpStatusError code _ =>
    if code = 404 then
      "Game \x27" ++ game_title ++ "\x27 not found on Metacritic. Try searching first with search_games."
    else "Error fetching game details: HTTP " ++ toString code
  | .transportError m => "Error getting game details: " ++ m

/-- The platform-browse URL construction of `get_top_games_by_platform`
(src/tools/metacritic.py:212-218). -/
def browseUrl (platform_slug : String) (time_period : String) : String :=
  if time_period = "all-time" then
    "https://www.metacritic.com/browse/game/" ++ platform_slug ++
      "/all/all-time/metascore/?releaseYearMin=1958&releaseYearMax=2025&page=1"
  else if time_period = "2024" ∨ time_period = "2023" ∨ time_period = "2022" then
    "https://www.metacritic.com/browse/game/" ++ platform_slug ++
      "/all/all-time/metascore/?releaseYearMin=" ++ time_period ++
      "&releaseYearMax=" ++ time_period ++ "&page=1"
  else
    "https://www.metacritic.com/browse/game/" ++ platform_slug ++
      "/all/all-time/metascore/?page=1"

/-- One `.c-finderProductCard` browse-list card after the per-field
`select_one` calls (used by both the top-games and recent-releases listings;
the `.c-tagList` platform tag is only read by recent releases). -/
structure BrowseCard where
  title? : Option String
  score? : Option String
  date? : Option String
  platform? : Option String
deriving DecidableEq

/-- The dict built per top-games card (src/tools/metacritic.py:236-240). -/
structure TopRecord where
  title : String
  metascore : Option Int
  release : String
deriving DecidableEq

/-- Per-card extraction of `get_top_games_by_platform`. -/
def topRecord? (card : BrowseCard) : Option TopRecord :=
  match card.title? with
  | none => none
  | some t =>
    some { title := t
           metascore := match card.score? with
                        | some s => _parse_score s
                        | none => none
           release := card.date?.getD "Unknown" }

/-- One loop iteration of the top-games formatter
(src/tools/metacritic.py:253-258): entries whose score is falsy (absent or 0)
contribute nothing, but still consume their rank index `i`. -/
def topEntry (i : Nat) (g : TopRecord) : String :=
  if truthyInt g.metascore then
    let score := g.metascore.getD 0
    let medal := if i = 1 then "🥇" else if i = 2 then "🥈" else if i = 3 then "🥉"
      else toString i ++ "."
    let score_emoji := if 90 ≤ score then "🟢" else if 75 ≤ score then "🟡" else "⚪"
    medal ++ " " ++ g.title ++ "\n    " ++ score_emoji ++ " Metascore: " ++
      toString score ++ " | Released: " ++ g.release ++ "\n\n"
  else ""

/-- `platform.upper().replace("-", " ")`. -/
def platformDisplay (platform : String) : String :=
  ⟨(platform.data.map charUpper).map (fun c => if c = Char.ofNat 45 then Char.ofNat 32 else c)⟩

/-- Embedding of `get_top_games_by_platform` (src/tools/metacritic.py:197-263).
Its single `except Exception` clause catches both status and transport
failures. -/
def get_top_games_by_platform (platform : String) (time_period : String)
    (fetch : Fetch (List BrowseCard)) : String :=
  let _url := browseUrl (platformSlug platform) time_period
  match fetch with
  | .success cards =>
    let results := (cards.take 15).filterMap topRecord?
    if results = [] then
      "No top games found for " ++ platform ++ ". The platform might not be available."
    else
      "🏆 Top Games for " ++ platformDisplay platform ++
        (if time_period ≠ "all-time" then " (" ++ time_period ++ ")" else "") ++ ":\n\n" ++
        String.join ((results.enumFrom 1).map (fun p => topEntry p.1 p.2))
  | .httpStatusError _ m => "Error fetching top games: " ++ m
  | .transportError m => "Error fetching top games: " ++ m

/-- The dict built per kept recent-releases card
(src/tools/metacritic.py:305-311). -/
structure RecentRecord where
  title : String
  metascore : Int
  release : String
  platform : String
deriving DecidableEq

/-- Per-card scan-and-filter step of `get_recent_releases`
(src/tools/metacritic.py:300-311): skip cards without a title, then keep the
card only when `score and score >= min_score` — Python truthiness, so a
parsed score of exactly 0 is dropped regardless of `min_score`. -/
def recentRecord? (min_score : Int) (platform : String) (card : BrowseCard) :
    Option RecentRecord :=
  match card.title? with
  | none => none
  | some t =>
    let score := card.score?.bind _parse_score
    match score with
    | some sc =>
      if sc ≠ 0 ∧ min_score ≤ sc then
        some { title := t, metascore := sc,
               release := card.date?.getD "Recent",
               platform := card.platform?.getD platform }
      else none
    | none => none

/-- The filtered record list of `get_recent_releases`: at most the first 20
cards are scanned. -/
def recentResults (platform : String) (min_score : Int)
    (cards : List BrowseCard) : List RecentRecord :=
  (cards.take 20).filterMap (recentRecord? min_score platform)

/-- One numbered entry of the recent-releases output
(src/tools/metacritic.py:319-323). -/
def recentLine (i : Nat) (g : RecentRecord) : String :=
  let score_emoji := if 85 ≤ g.metascore then "🟢" else if 75 ≤ g.metascore then "🟡" else "⚪"
  toString i ++ ". " ++ g.title ++ "\n   " ++ score_emoji ++ " Metascore: " ++
    toString g.metascore ++ " | " ++ g.release ++ "\n   Platform: " ++ g.platform ++ "\n\n"

/-- Embedding of `get_recent_releases` (src/tools/metacritic.py:266-328):
only `results[:10]` are rendered; the single `except Exception` clause
catches both status and transport failures. -/
def get_recent_releases (platform : String) (min_score : Int)
    (fetch : Fetch (List BrowseCard)) : String :=
  match fetch with
  | .success cards =>
    let results := recentResults platform min_score cards
    if results = [] then
      "No recent releases found with Metascore >= " ++ toString min_score ++
        ". Try lowering the threshold."
    else
      "🆕 Recent Releases (Metascore ≥ " ++ toString min_score ++ "):\n\n" ++
        String.join (((results.take 10).enumFrom 1).map (fun p => recentLine p.1 p.2))
  | .httpStatusError _ m => "Error fetching recent releases: " ++ m
  | .transportError m => "Error fetching recent releases: " ++ m

/-- Does `needle` occur at the start of `haystack`?  (Python `s.startswith`,
used below to model the substring operator `in`.) -/
def startsWith : List Char → List Char → Bool
  | [], _ => true
  | _ :: _, [] => false
  | a :: as, b :: bs => a == b && startsWith as bs

/-- Python `needle in haystack` on strings, over character lists. -/
def subStr (needle : List Char) : List Char → Bool
  | [] => needle.isEmpty
  | h :: t => startsWith needle (h :: t) || subStr needle t

/-- The Game Awards 2025 winners (src/tools/metacritic.py:334-366). -/
def awards2025 : List (String × String) :=
  [("Game of the Year", "Clair Obscur: Expedition 33"),
   ("Best Game Direction", "Clair Obscur: Expedition 33"),
   ("Best Narrative", "Clair Obscur: Expedition 33"),
   ("Best Art Direction", "Clair Obscur: Expedition 33"),
   ("Best Score and Music", "Clair Obscur: Expedition 33 (Lorien Testard)"),
   ("Best Audio Design", "Battlefield 6"),
   ("Best Performance", "Jennifer English as Maelle (Clair Obscur: Expedition 33)"),
   ("Games for Impact", "South of Midnight"),
   ("Best Ongoing Game", "No Man\x27s Sky"),
   ("Best Community Support", "Baldur\x27s Gate 3"),
   ("Best Indie Game", "Clair Obscur: Expedition 33"),
   ("Best Debut Indie Game", "Clair Obscur: Expedition 33"),
   ("Best Mobile Game", "Umamusume: Pretty Derby"),
   ("Best VR/AR Game", "The Midnight Walk"),
   ("Best Action Game", "Hades II"),
   ("Best Action/Adventure Game", "Hollow Knight: Silksong"),
   ("Best RPG", "Clair Obscur: Expedition 33"),
   ("Best Fighting Game", "Fatal Fury: City of the Wolves"),
   ("Best Family Game", "Donkey Kong Bananza"),
   ("Best Sim/Strategy Game", "Final Fantasy Tactics: The Ivalice Chronicles"),
   ("Best Sports/Racing Game", "Mario Kart World"),
   ("Best Multiplayer Game", "Arc Raiders"),
   ("Best Adaptation", "The Last of Us: Season 2"),
   ("Most Anticipated Game", "Grand Theft Auto VI"),
   ("Content Creator of the Year", "MoistCr1TiKaL"),
   ("Best Esports Game", "Counter-Strike 2"),
   ("Best Esports Athlete", "Chovy (League of Legends)"),
   ("Best Esports Team", "Team Vitality"),
   ("Player\x27s Voice", "Wuthering Waves"),
   ("Innovation in Accessibility", "Doom: The Dark Ages"),
   ("Game Changer Award", "Girls Make Games")]

/-- The Game Awards 2024 winners (src/tools/metacritic.py:367-395). -/
def awards2024 : List (String × String) :=
  [("Game of the Year", "Astro Bot"),
   ("Best Game Direction", "Astro Bot"),
   ("Best Narrative", "Metaphor: ReFantazio"),
   ("Best Art Direction", "Metaphor: ReFantazio"),
   ("Best Score and Music", "Final Fantasy VII Rebirth"),
   ("Best Audio Design", "Senua\x27s Saga: Hellblade II"),
   ("Best Performance", "Melina Juergens (Senua\x27s Saga: Hellblade II)"),
   ("Games for Impact", "Neva"),
   ("Best Ongoing Game", "Helldivers 2"),
   ("Best Indie Game", "Balatro"),
   ("Best Debut Indie Game", "Balatro"),
   ("Best Mobile Game", "Balatro"),
   ("Best VR/AR Game", "Batman: Arkham Shadow"),
   ("Best Action Game", "Black Myth: Wukong"),
   ("Best Action/Adventure Game", "Astro Bot"),
   ("Best RPG", "Metaphor: ReFantazio"),
   ("Best Fighting Game", "Tekken 8"),
   ("Best Family Game", "Astro Bot"),
   ("Best Sim/Strategy Game", "Frostpunk 2"),
   ("Best Sports/Racing Game", "EA Sports FC 25"),
   ("Best Multiplayer Game", "Helldivers 2"),
   ("Best Adaptation", "Fallout (TV Series)"),
   ("Most Anticipated Game", "Grand Theft Auto VI"),
   ("Content Creator of the Year", "CaseOh"),
   ("Best Esports Game", "League of Legends"),
   ("Player\x27s Voice", "Black Myth: Wukong"),
   ("Innovation in Accessibility", "Prince of Persia: The Lost Crown")]

/-- The Game Awards 2023 winners (src/tools/metacritic.py:396-422). -/
def awards2023 : List (String × String) :=
  [("Game of the Year", "Baldur\x27s Gate 3"),
   ("Best Game Direction", "Alan Wake 2"),
   ("Best Narrative", "Alan Wake 2"),
   ("Best Art Direction", "Alan Wake 2"),
   ("Best Score and Music", "Final Fantasy XVI"),
   ("Best Audio Design", "Hi-Fi Rush"),
   ("Best Performance", "Neil Newbon (Baldur\x27s Gate 3)"),
   ("Games for Impact", "Tchia"),
   ("Best Ongoing Game", "Cyberpunk 2077"),
   ("Best Indie Game", "Sea of Stars"),
   ("Best Debut Indie Game", "Cocoon"),
   ("Best Mobile Game", "Honkai: Star Rail"),
   ("Best VR/AR Game", "Resident Evil Village VR Mode"),
   ("Best Action Game", "Armored Core VI: Fires of Rubicon"),
   ("Best Action/Adventure Game", "The Legend of Zelda: Tears of the Kingdom"),
   ("Best RPG", "Baldur\x27s Gate 3"),
   ("Best Fighting Game", "Street Fighter 6"),
   ("Best Family Game", "Super Mario Bros. Wonder"),
   ("Best Sim/Strategy Game", "Pikmin 4"),
   ("Best Sports/Racing Game", "Forza Motorsport"),
   ("Best Multiplayer Game", "Baldur\x27s Gate 3"),
   ("Best Adaptation", "The Last of Us (TV Series)"),
   ("Most Anticipated Game", "Final Fantasy VII Rebirth"),
   ("Content Creator of the Year", "IronMouse"),
   ("Best Esports Game", "Valorant")]

/-- The Game Awards 2022 winners (src/tools/metacritic.py:423-448). -/
def awards2022 : List (String × String) :=
  [("Game of the Year", "Elden Ring"),
   ("Best Game Direction", "Elden Ring"),
   ("Best Narrative", "God of War Ragnarök"),
   ("Best Art Direction", "Elden Ring"),
   ("Best Score and Music", "God of War Ragnarök"),
   ("Best Audio Design", "God of War Ragnarök"),
   ("Best Performance", "Christopher Judge (God of War Ragnarök)"),
   ("Games for Impact", "As Dusk Falls"),
   ("Best Ongoing Game", "Final Fantasy XIV"),
   ("Best Indie Game", "Stray"),
   ("Best Debut Indie Game", "Stray"),
   ("Best Mobile Game", "Marvel Snap"),
   ("Best VR/AR Game", "Moss: Book II"),
   ("Best Action Game", "Bayonetta 3"),
   ("Best Action/Adventure Game", "God of War Ragnarök"),
   ("Best RPG", "Elden Ring"),
   ("Best Fighting Game", "MultiVersus"),
   ("Best Family Game", "Kirby and the Forgotten Land"),
   ("Best Sim/Strategy Game", "Mario + Rabbids Sparks of Hope"),
   ("Best Sports/Racing Game", "Gran Turismo 7"),
   ("Best Multiplayer Game", "Splatoon 3"),
   ("Most Anticipated Game", "The Legend of Zelda: Tears of the Kingdom"),
   ("Content Creator of the Year", "Ludwig"),
   ("Best Esports Game", "Valorant")]

/-- The Game Awards 2021 winners (src/tools/metacritic.py:449-474). -/
def awards2021 : List (String × String) :=
  [("Game of the Year", "It Takes Two"),
   ("Best Game Direction", "Deathloop"),
   ("Best Narrative", "Marvel\x27s Guardians of the Galaxy"),
   ("Best Art Direction", "Deathloop"),
   ("Best Score and Music", "NieR Replicant ver.1.22474487139..."),
   ("Best Audio Design", "Forza Horizon 5"),
   ("Best Performance", "Maggie Robertson (Resident Evil Village)"),
   ("Games for Impact", "Life is Strange: True Colors"),
   ("Best Ongoing Game", "Final Fantasy XIV"),
   ("Best Indie Game", "Kena: Bridge of Spirits"),
   ("Best Debut Indie Game", "Kena: Bridge of Spirits"),
   ("Best Mobile Game", "Genshin Impact"),
   ("Best VR/AR Game", "Resident Evil 4 VR"),
   ("Best Action Game", "Returnal"),
   ("Best Action/Adventure Game", "Metroid Dread"),
   ("Best RPG", "Tales of Arise"),
   ("Best Fighting Game", "Guilty Gear Strive"),
   ("Best Family Game", "It Takes Two"),
   ("Best Sim/Strategy Game", "Age of Empires IV"),
   ("Best Sports/Racing Game", "Forza Horizon 5"),
   ("Best Multiplayer Game", "It Takes Two"),
   ("Most Anticipated Game", "Elden Ring"),
   ("Content Creator of the Year", "Dream"),
   ("Best Esports Game", "League of Legends")]

/-- The Game Awards 2020 winners (src/tools/metacritic.py:475-499). -/
def awards2020 : List (String × String) :=
  [("Game of the Year", "The Last of Us Part II"),
   ("Best Game Direction", "The Last of Us Part II"),
   ("Best Narrative", "The Last of Us Part II"),
   ("Best Art Direction", "Ghost of Tsushima"),
   ("Best Score and Music", "Final Fantasy VII Remake"),
   ("Best Audio Design", "The Last of Us Part II"),
   ("Best Performance", "Laura Bailey (The Last of Us Part II)"),
   ("Games for Impact", "Tell Me Why"),
   ("Best Ongoing Game", "No Man\x27s Sky"),
   ("Best Indie Game", "Hades"),
   ("Best Mobile Game", "Among Us"),
   ("Best VR/AR Game", "Half-Life: Alyx"),
   ("Best Action Game", "Hades"),
   ("Best Action/Adventure Game", "The Last of Us Part II"),
   ("Best RPG", "Final Fantasy VII Remake"),
   ("Best Fighting Game", "Mortal Kombat 11 Ultimate"),
   ("Best Family Game", "Animal Crossing: New Horizons"),
   ("Best Sim/Strategy Game", "Microsoft Flight Simulator"),
   ("Best Sports/Racing Game", "Tony Hawk\x27s Pro Skater 1 + 2"),
   ("Best Multiplayer Game", "Among Us"),
   ("Most Anticipated Game", "Elden Ring"),
   ("Content Creator of the Year", "Valkyrae"),
   ("Best Esports Game", "League of Legends")]

/-- The Game Awards 2019 winners (src/tools/metacritic.py:500-524). -/
def awards2019 : List (String × String) :=
  [("Game of the Year", "Sekiro: Shadows Die Twice"),
   ("Best Game Direction", "Death Stranding"),
   ("Best Narrative", "Disco Elysium"),
   ("Best Art Direction", "Control"),
   ("Best Score and Music", "Death Stranding"),
   ("Best Audio Design", "Call of Duty: Modern Warfare"),
   ("Best Performance", "Mads Mikkelsen (Death Stranding)"),
   ("Games for Impact", "Gris"),
   ("Best Ongoing Game", "Fortnite"),
   ("Best Indie Game", "Disco Elysium"),
   ("Best Mobile Game", "Call of Duty: Mobile"),
   ("Best VR/AR Game", "Beat Saber"),
   ("Best Action Game", "Devil May Cry 5"),
   ("Best Action/Adventure Game", "Sekiro: Shadows Die Twice"),
   ("Best RPG", "Disco Elysium"),
   ("Best Fighting Game", "Super Smash Bros. Ultimate"),
   ("Best Family Game", "Luigi\x27s Mansion 3"),
   ("Best Sim/Strategy Game", "Fire Emblem: Three Houses"),
   ("Best Sports/Racing Game", "Crash Team Racing Nitro-Fueled"),
   ("Best Multiplayer Game", "Apex Legends"),
   ("Most Anticipated Game", "The Last of Us Part II"),
   ("Content Creator of the Year", "Shroud"),
   ("Best Esports Game", "League of Legends")]

/-- The Game Awards 2018 winners (src/tools/metacritic.py:525-549). -/
def awards2018 : List (String × String) :=
  [("Game of the Year", "God of War"),
   ("Best Game Direction", "God of War"),
   ("Best Narrative", "Red Dead Redemption 2"),
   ("Best Art Direction", "Red Dead Redemption 2"),
   ("Best Score and Music", "Red Dead Redemption 2"),
   ("Best Audio Design", "Red Dead Redemption 2"),
   ("Best Performance", "Roger Clark (Red Dead Redemption 2)"),
   ("Games for Impact", "Celeste"),
   ("Best Ongoing Game", "Fortnite"),
   ("Best Indie Game", "Celeste"),
   ("Best Mobile Game", "Florence"),
   ("Best VR/AR Game", "Astro Bot Rescue Mission"),
   ("Best Action Game", "Dead Cells"),
   ("Best Action/Adventure Game", "God of War"),
   ("Best RPG", "Monster Hunter: World"),
   ("Best Fighting Game", "Dragon Ball FighterZ"),
   ("Best Family Game", "Overcooked 2"),
   ("Best Sim/Strategy Game", "Into the Breach"),
   ("Best Sports/Racing Game", "Forza Horizon 4"),
   ("Best Multiplayer Game", "Fortnite"),
   ("Most Anticipated Game", "The Last of Us Part II"),
   ("Content Creator of the Year", "Ninja"),
   ("Best Esports Game", "Overwatch")]

/-- The `GAME_AWARDS_DATA` table (src/tools/metacritic.py:333-550), in the
source's insertion order (2025 down to 2018). -/
def GAME_AWARDS_DATA : List (Int × List (String × String)) :=
  [(2025, awards2025), (2024, awards2024), (2023, awards2023), (2022, awards2022),
   (2021, awards2021), (2020, awards2020), (2019, awards2019), (2018, awards2018)]

/-- The keys of `GAME_AWARDS_DATA`. -/
def awardYears : List Int := GAME_AWARDS_DATA.map (fun p => p.1)

/-- `sorted(keys, reverse=True)`: insertion of one element into a descending
list. -/
def insertDesc (x : Int) : List Int → List Int
  | [] => [x]
  | y :: ys => if y < x then x :: y :: ys else y :: insertDesc x ys

/-- `sorted(keys, reverse=True)` modelled as insertion sort (descending). -/
def sortDesc (l : List Int) : List Int := l.foldr insertDesc []

/-- The category scan of `get_game_awards` (src/tools/metacritic.py:580-583):
first entry whose name contains the query or is contained in it,
case-insensitively, in table order. -/
def matchCategory (category_lower : String) :
    List (String × String) → Option (String × String)
  | [] => none
  | (cat, winner) :: rest =>
    if subStr category_lower.data (pyLower cat).data ∨
        subStr (pyLower cat).data category_lower.data then some (cat, winner)
    else matchCategory category_lower rest

/-- Embedding of `get_game_awards` (src/tools/metacritic.py:553-587): a pure
total function on the static table — an unknown year yields the
available-years message, category "all" the full listing, a matched category
its winner line, and no match the valid-category listing. -/
def get_game_awards (year : Int) (category : String) : String :=
  match GAME_AWARDS_DATA.lookup year with
  | none =>
    "Data not available for " ++ toString year ++ ". Available years: " ++
      String.intercalate ", " ((sortDesc awardYears).map toString)
  | some awards =>
    if pyLower category = "all" then
      "🏆 The Game Awards " ++ toString year ++ " - All Winners:\n\n" ++
        String.join (awards.map (fun p => "  🎮 " ++ p.1 ++ ": " ++ p.2 ++ "\n"))
    else
      match matchCategory (pyLower category) awards with
      | some p => "🏆 The Game Awards " ++ toString year ++ "\n" ++ p.1 ++ ": " ++ p.2
      | none =>
        "Category \x27" ++ category ++ "\x27 not found for " ++ toString year ++
          ".\n\nAvailable categories:\n" ++
          String.intercalate "\n" (awards.map (fun p => "  • " ++ p.1))

/-- A record as the spec describes the browse-extraction stage: all fields
extracted, the critic score still optional, no filtering applied yet. -/
structure ScannedCard where
  title : String
  score : Option Int
  release : String
  platform : String
deriving DecidableEq

/-- Spec-shaped stage one for recent releases, following §4.5 of the spec:
per-card tolerant extraction of up to 20 cards, skipping only cards without a
title, with no score filtering. -/
def specScanCard (platform : String) (card : BrowseCard) : Option ScannedCard :=
  card.title?.map (fun t =>
    { title := t, score := card.score?.bind _parse_score,
      release := card.date?.getD "Recent", platform := card.platform?.getD platform })

/-- Spec-shaped extraction of the scanned card list (cap 20). -/
def specScan (platform : String) (cards : List BrowseCard) : List ScannedCard :=
  (cards.take 20).filterMap (specScanCard platform)

/-- The filtering predicate the code actually applies to a scanned card
(`score and score >= min_score`), isolated for comparison with the spec's
"known and at least min_score" wording. -/
def specKeep (min_score : Int) (s : ScannedCard) : Bool :=
  match s.score with
  | some sc => decide (sc ≠ 0 ∧ min_score ≤ sc)
  | none => false

/-- Promote a kept scanned card to the record stored by the source loop. -/
def toRecent (s : ScannedCard) : RecentRecord :=
  { title := s.title, metascore := s.score.getD 0,
    release := s.release, platform := s.platform }

/-- A browse card whose score text parses to exactly 0. -/
def zeroCard : BrowseCard :=
  { title? := some "Zero Game", score? := some "0",
    date? := some "Jan 1", platform? := some "PC" }

/-- The spec's worked example: four cards with score texts parsing to
[unknown, 60, 75, 90]. -/
def exampleCards : List BrowseCard :=
  [{ title? := some "A", score? := some "tbd", date? := none, platform? := none },
   { title? := some "B", score? := some "60", date? := none, platform? := none },
   { title? := some "C", score? := some "75", date? := none, platform? := none },
   { title? := some "D", score? := some "90", date? := none, platform? := none }]

/-- A qualifying card used to exercise the 10-item display cap. -/
def card90 : BrowseCard :=
  { title? := some "Hit", score? := some "90", date? := none, platform? := none }

/-- A concrete scanned card used by witnesses. -/
def scanEx : ScannedCard :=
  { title := "C", score := some 75, release := "Recent", platform := "all" }

/-- Adjacent characters are not both hyphens — the invariant established by
`collapseHyphens` and preserved by `stripHyphens`. -/
abbrev RHy : Char → Char → Prop :=
  fun a b => ¬(a = Char.ofNat 45 ∧ b = Char.ofNat 45)

/-! ### Helper lemmas -/

theorem head?_mem_self {α : Type} {l : List α} {c : α} (h : l.head? = some c) :
    c ∈ l := by
  cases l with
  | nil => simp at h
  | cons a t =>
    simp only [List.head?_cons, Option.some.injEq] at h
    simp [← h]

theorem mapIdOn {l : List Char} {f : Char → Char} (h : ∀ c ∈ l, f c = c) :
    l.map f = l := by
  induction l with
  | nil => rfl
  | cons a t ih =>
    simp only [List.map_cons]
    rw [h a (List.mem_cons_self a t), ih (fun c hc => h c (List.mem_cons_of_mem a hc))]

theorem dropWhileIdOn {p : Char → Bool} {l : List Char}
    (h : ∀ c, l.head? = some c → p c = false) : l.dropWhile p = l := by
  cases l with
  | nil => rfl
  | cons a t => rw [List.dropWhile_cons, if_neg (by simp [h a rfl])]

theorem dropWhileHead {p : Char → Bool} : ∀ {l : List Char} {c : Char},
    (l.dropWhile p).head? = some c → p c = false := by
  intro l
  induction l with
  | nil => intro c h; simp at h
  | cons a t ih =>
    intro c h
    rw [List.dropWhile_cons] at h
    by_cases hp : p a
    · rw [if_pos hp] at h; exact ih h
    · rw [if_neg hp] at h
      simp only [List.head?_cons, Option.some.injEq] at h
      subst h
      simpa using hp

theorem dropWhileMem {p : Char → Bool} : ∀ {l : List Char} {c : Char},
    c ∈ l.dropWhile p → c ∈ l := by
  intro l
  induction l with
  | nil => intro c h; simp at h
  | cons a t ih =>
    intro c h
    rw [List.dropWhile_cons] at h
    by_cases hp : p a
    · rw [if_pos hp] at h; exact List.mem_cons_of_mem a (ih h)
    · rwa [if_neg hp] at h

theorem dropWhileGetLast {p : Char → Bool} : ∀ {l : List Char},
    l.dropWhile p ≠ [] → (l.dropWhile p).getLast? = l.getLast? := by
  intro l
  induction l with
  | nil => intro h; simp at h
  | cons a t ih =>
    intro h
    rw [List.dropWhile_cons] at h ⊢
    by_cases hp : p a
    · rw [if_pos hp] at h ⊢
      rw [ih h]
      cases t with
      | nil => simp at h
      | cons b bs => rw [List.getLast?_cons_cons]
    · rw [if_neg hp]

theorem strip_mem {l : List Char} {c : Char} (h : c ∈ stripHyphens l) : c ∈ l := by
  unfold stripHyphens at h
  rw [List.mem_reverse] at h
  have h1 := dropWhileMem h
  rw [List.mem_reverse] at h1
  exact dropWhileMem h1

theorem collapse_mem : ∀ {l : List Char} {c : Char},
    c ∈ collapseHyphens l → c ∈ l := by
  intro l
  induction l with
  | nil => intro c h; simp [collapseHyphens] at h
  | cons a t ih =>
    cases t with
    | nil => intro c h; simpa [collapseHyphens] using h
    | cons b rest =>
      intro c h
      simp only [collapseHyphens] at h
      split at h
      · exact List.mem_cons_of_mem a (ih h)
      · rcases List.mem_cons.mp h with h1 | h2
        · simp [h1]
        · exact List.mem_cons_of_mem a (ih h2)

theorem collapse_head : ∀ (t : List Char) (a : Char),
    (collapseHyphens (a :: t)).head? = some a := by
  intro t
  induction t with
  | nil => intro a; rfl
  | cons b rest ih =>
    intro a
    simp only [collapseHyphens]
    split
    · rename_i hcond
      rw [ih b, hcond.1, hcond.2]
    · rfl

theorem collapse_chain : ∀ l : List Char, (collapseHyphens l).Chain' RHy := by
  intro l
  induction l with
  | nil => simp [collapseHyphens]
  | cons a t ih =>
    cases t with
    | nil => simp [collapseHyphens]
    | cons b rest =>
      simp only [collapseHyphens]
      split
      · exact ih
      · rename_i hcond
        rw [List.chain'_cons']
        refine ⟨fun y hy => ?_, ih⟩
        rw [collapse_head rest b] at hy
        simp only [Option.mem_def, Option.some.injEq] at hy
        subst hy
        exact hcond

theorem collapse_id : ∀ (l : List Char), l.Chain' RHy → collapseHyphens l = l := by
  intro l
  induction l with
  | nil => intro _; rfl
  | cons a t ih =>
    cases t with
    | nil => intro _; rfl
    | cons b rest =>
      intro h
      rw [List.chain'_cons] at h
      simp only [collapseHyphens]
      rw [if_neg h.1, ih h.2]

theorem chain_dropWhile {p : Char → Bool} : ∀ {l : List Char},
    l.Chain' RHy → (l.dropWhile p).Chain' RHy := by
  intro l
  induction l with
  | nil => intro _; simp
  | cons a t ih =>
    intro h
    rw [List.dropWhile_cons]
    split
    · exact ih h.tail
    · exact h

theorem chain_reverse_hy {l : List Char} (h : l.Chain' RHy) :
    l.reverse.Chain' RHy := by
  rw [List.chain'_reverse]
  exact h.imp (fun a b hab hba => hab ⟨hba.2, hba.1⟩)

theorem strip_chain {l : List Char} (h : l.Chain' RHy) :
    (stripHyphens l).Chain' RHy := by
  unfold stripHyphens
  exact chain_reverse_hy (chain_dropWhile (chain_reverse_hy (chain_dropWhile h)))

theorem strip_head_not_hy {l : List Char} {c : Char}
    (h : (stripHyphens l).head? = some c) : ¬(c = Char.ofNat 45) := by
  unfold stripHyphens at h
  rw [List.head?_reverse] at h
  by_cases hne :
      ((l.dropWhile fun c => c = Char.ofNat 45).reverse.dropWhile
        fun c => c = Char.ofNat 45) = []
  · rw [hne] at h; simp at h
  · rw [dropWhileGetLast hne, List.getLast?_reverse] at h
    simpa using dropWhileHead h

theorem strip_last_not_hy {l : List Char} {c : Char}
    (h : (stripHyphens l).getLast? = some c) : ¬(c = Char.ofNat 45) := by
  unfold stripHyphens at h
  rw [List.getLast?_reverse] at h
  simpa using dropWhileHead h

theorem strip_id {l : List Char}
    (hh : ∀ c, l.head? = some c → ¬(c = Char.ofNat 45))
    (hl : ∀ c, l.getLast? = some c → ¬(c = Char.ofNat 45)) :
    stripHyphens l = l := by
  unfold stripHyphens
  have h1 : l.dropWhile (fun c => c = Char.ofNat 45) = l :=
    dropWhileIdOn (fun c hc => by simpa using hh c hc)
  have h2 : l.reverse.dropWhile (fun c => c = Char.ofNat 45) = l.reverse :=
    dropWhileIdOn (fun c hc => by
      rw [List.head?_reverse] at hc
      simpa using hl c hc)
  rw [h1, h2, List.reverse_reverse]

theorem slugChar_mem {d : List Char} {c : Char} (h : c ∈ slugChars d) :
    isSlugChar c = true := by
  unfold slugChars at h
  exact (List.mem_filter.mp (collapse_mem (strip_mem h))).2

theorem slug_charLower {c : Char} (h : isSlugChar c = true) : charLower c = c := by
  have h' := of_decide_eq_true h
  have hno : ¬(65 ≤ c.toNat ∧ c.toNat ≤ 90) := by
    rcases h' with h1 | h1 | h1 <;> omega
  unfold charLower
  rw [if_neg hno]

theorem slug_ne_space {c : Char} (h : isSlugChar c = true) :
    ¬(c = Char.ofNat 32) := by
  rintro rfl
  exact absurd h (by decide)

theorem slug_ne_colon {c : Char} (h : isSlugChar c = true) :
    ¬(c = Char.ofNat 58) := by
  rintro rfl
  exact absurd h (by decide)

theorem slug_ne_apos {c : Char} (h : isSlugChar c = true) :
    ¬(c = Char.ofNat 39) := by
  rintro rfl
  exact absurd h (by decide)

theorem slug_idem_chars (d : List Char) :
    slugChars (slugChars d) = slugChars d := by
  set r := slugChars d with hr
  have hmem : ∀ c ∈ r, isSlugChar c = true := fun c hc => slugChar_mem (hr ▸ hc)
  have hchain : r.Chain' RHy := by
    rw [hr]; unfold slugChars; exact strip_chain (collapse_chain _)
  have hhead : ∀ c, r.head? = some c → ¬(c = Char.ofNat 45) := by
    intro c hc
    rw [hr] at hc
    unfold slugChars at hc
    exact strip_head_not_hy hc
  have hlast : ∀ c, r.getLast? = some c → ¬(c = Char.ofNat 45) := by
    intro c hc
    rw [hr] at hc
    unfold slugChars at hc
    exact strip_last_not_hy hc
  have e1 : r.map charLower = r := mapIdOn (fun c hc => slug_charLower (hmem c hc))
  have e2 : r.map (fun c => if c = Char.ofNat 32 then Char.ofNat 45 else c) = r :=
    mapIdOn (fun c hc => if_neg (slug_ne_space (hmem c hc)))
  have e3 : r.filter (fun c => c ≠ Char.ofNat 58) = r :=
    List.filter_eq_self.mpr (fun c hc => by simpa using slug_ne_colon (hmem c hc))
  have e4 : r.filter (fun c => c ≠ Char.ofNat 39) = r :=
    List.filter_eq_self.mpr (fun c hc => by simpa using slug_ne_apos (hmem c hc))
  have e5 : r.filter isSlugChar = r := List.filter_eq_self.mpr (fun c hc => hmem c hc)
  unfold slugChars
  rw [e1, e2, e3, e4, e5, collapse_id r hchain, strip_id hhead hlast]

theorem digit_not_space {c : Char} (h : isDigitChar c = true) :
    isPySpace c = false := by
  have h' := of_decide_eq_true h
  unfold isPySpace
  exact decide_eq_false (by omega)

theorem stripWs_digits {l : List Char} (h : ∀ c ∈ l, isDigitChar c = true) :
    stripWs l = l := by
  unfold stripWs
  have h1 : l.dropWhile isPySpace = l :=
    dropWhileIdOn (fun c hc => digit_not_space (h c (head?_mem_self hc)))
  have h2 : l.reverse.dropWhile isPySpace = l.reverse :=
    dropWhileIdOn (fun c hc => by
      rw [List.head?_reverse] at hc
      have : c ∈ l := List.mem_of_mem_getLast? (by rw [hc]; rfl)
      exact digit_not_space (h c this))
  rw [h1, h2, List.reverse_reverse]

theorem pyInt?_digits {l : List Char} (hne : l ≠ [])
    (h : ∀ c ∈ l, isDigitChar c = true) :
    pyInt? ⟨l⟩ = some ((natOfDigits l : Int)) := by
  have hws : stripWs l = l := stripWs_digits h
  have h45 : ¬(l.head? = some (Char.ofNat 45)) := fun hc =>
    absurd (h _ (head?_mem_self hc)) (by decide)
  have h43 : ¬(l.head? = some (Char.ofNat 43)) := fun hc =>
    absurd (h _ (head?_mem_self hc)) (by decide)
  simp only [pyInt?]
  rw [hws, if_neg h45, if_neg h43, if_pos ⟨hne, List.all_eq_true.mpr h⟩]

theorem parse_score_digits {s : String} (h1 : isSentinel s = false)
    (h2 : s.data.filter isDigitChar ≠ []) :
    _parse_score s = some ((natOfDigits (s.data.filter isDigitChar) : Int)) := by
  unfold _parse_score
  rw [if_neg (by simp [h1])]
  exact pyInt?_digits h2 (fun c hc => (List.mem_filter.mp hc).2)

theorem parse_score_nonneg {s : String} {n : Int}
    (h : _parse_score s = some n) : 0 ≤ n := by
  unfold _parse_score at h
  by_cases hs : isSentinel s = true
  · rw [if_pos hs] at h; cases h
  · rw [if_neg hs] at h
    by_cases hf : s.data.filter isDigitChar = []
    · rw [hf] at h
      have hnone : pyInt? ⟨([] : List Char)⟩ = none := by decide
      rw [hnone] at h
      cases h
    · rw [pyInt?_digits hf (fun c hc => (List.mem_filter.mp hc).2)] at h
      simp only [Option.some.injEq] at h
      rw [← h]
      exact Int.natCast_nonneg _

theorem sentinel_parse {s : String}
    (h : pyLower s = "tbd" ∨ pyLower s = "n/a" ∨ pyLower s = "") :
    _parse_score s = none ∧ _parse_user_score s = none := by
  have hs : isSentinel s = true := by
    unfold isSentinel
    rcases h with h | h | h <;> simp [h]
  exact ⟨by simp [_parse_score, hs], by simp [_parse_user_score, hs]⟩

theorem startsWith_iff {n h : List Char} :
    startsWith n h = true ↔ ∃ t, h = n ++ t := by
  induction n generalizing h with
  | nil => simp [startsWith]
  | cons a as ih =>
    cases h with
    | nil =>
      simp only [startsWith]
      constructor
      · intro hc; cases hc
      · rintro ⟨t, ht⟩; cases ht
    | cons b bs =>
      simp only [startsWith, Bool.and_eq_true, beq_iff_eq, ih, List.cons_append]
      constructor
      · rintro ⟨rfl, t, rfl⟩
        exact ⟨t, rfl⟩
      · rintro ⟨t, ht⟩
        injection ht with hb hbs
        exact ⟨hb.symm, t, hbs⟩

theorem subStr_iff {n h : List Char} :
    subStr n h = true ↔ ∃ l1 l2, h = l1 ++ n ++ l2 := by
  induction h with
  | nil =>
    simp only [subStr]
    constructor
    · intro hn
      exact ⟨[], [], by simp [List.isEmpty_iff.mp hn]⟩
    · rintro ⟨l1, l2, heq⟩
      have h2 := heq.symm
      rw [List.append_eq_nil] at h2
      have h3 := h2.1
      rw [List.append_eq_nil] at h3
      simp [h3.2]
  | cons c t ih =>
    simp only [subStr, Bool.or_eq_true, startsWith_iff, ih]
    constructor
    · rintro (⟨t2, ht⟩ | ⟨l1, l2, rfl⟩)
      · exact ⟨[], t2, by simpa using ht⟩
      · exact ⟨c :: l1, l2, rfl⟩
    · rintro ⟨l1, l2, heq⟩
      cases l1 with
      | nil =>
        left
        exact ⟨l2, by simpa using heq⟩
      | cons x xs =>
        right
        rw [List.cons_append, List.cons_append] at heq
        injection heq with h1 h2
        exact ⟨xs, l2, h2⟩

theorem recent_filterMap_eq (p : String) (ms : Int) :
    ∀ l : List BrowseCard,
      l.filterMap (recentRecord? ms p) =
        ((l.filterMap (specScanCard p)).filter (specKeep ms)).map toRecent := by
  intro l
  induction l with
  | nil => rfl
  | cons c t ih =>
    rw [List.filterMap_cons, List.filterMap_cons]
    cases hti : c.title? with
    | none =>
      simp only [recentRecord?, specScanCard, hti, Option.map_none']
      exact ih
    | some ttl =>
      cases hsc : c.score?.bind _parse_score with
      | none =>
        simp only [recentRecord?, specScanCard, hti, hsc, Option.map_some']
        rw [List.filter_cons_of_neg (by simp [specKeep, hsc]), ih]
      | some sc =>
        by_cases hk : sc ≠ 0 ∧ ms ≤ sc
        · simp only [recentRecord?, specScanCard, hti, hsc, Option.map_some', if_pos hk]
          rw [List.filter_cons_of_pos (by simp [specKeep, hsc, hk]), List.map_cons, ih]
          rfl
        · simp only [recentRecord?, specScanCard, hti, hsc, Option.map_some', if_neg hk]
          rw [List.filter_cons_of_neg (by simp [specKeep, hsc, hk]), ih]

theorem parse_user_15_5 : _parse_user_score "15.5" = some ((31 : Rat) / 2) := by
  have hsent : ¬(isSentinel "15.5" = true) := by decide
  unfold _parse_user_score
  rw [if_neg hsent]
  simp only [pyFloat?]
  rw [show stripWs "15.5".data = "15.5".data from by decide]
  rw [if_neg (by decide), if_neg (by decide)]
  simp only [pyFloatCore]
  rw [show List.dropWhile (fun c => c ≠ Char.ofNat 46) "15.5".data =
        [Char.ofNat 46, Char.ofNat 53] from by decide]
  rw [show List.takeWhile (fun c => c ≠ Char.ofNat 46) "15.5".data =
        [Char.ofNat 49, Char.ofNat 53] from by decide]
  rw [show natOfDigits [Char.ofNat 49, Char.ofNat 53] = 15 from by decide]
  show (if (([Char.ofNat 49, Char.ofNat 53] : List Char) ≠ [] ∨
        ([Char.ofNat 53] : List Char) ≠ []) ∧
        ([Char.ofNat 49, Char.ofNat 53] : List Char).all isDigitChar = true ∧
        ([Char.ofNat 53] : List Char).all isDigitChar = true then
      some (((15 : Nat) : Rat) +
        ((natOfDigits [Char.ofNat 53] : Nat) : Rat) /
          (10 : Rat) ^ ([Char.ofNat 53] : List Char).length)
    else none) = some ((31 : Rat) / 2)
  rw [if_pos (by decide)]
  rw [show natOfDigits [Char.ofNat 53] = 5 from by decide]
  norm_num

/-! ### Claim theorems -/

/-- C1: every façade operation is a total function into text — the embedding
itself is total, so no exception crosses the boundary — and every fetch
failure is mapped to the descriptive message of the corresponding `except`
clause: both HTTP-status and transport errors in `search_games` produce the
search error message, arbitrary markup with no recognizable cards still
produces the "No games found" text, a 404 in `get_game_details` produces the
dedicated "not found, try searching first" message while other statuses and
transport failures get their own messages, and the top-games and
recent-releases operations map every failure to their generic messages. -/
theorem facade_failure_mapping :
    (∀ q p m, search_games q p (.transportError m) =
        "Error searching for games: " ++ m ++ ". Please try again.") ∧
      (∀ q p c m, search_games q p (.httpStatusError c m) =
        "Error searching for games: " ++ m ++ ". Please try again.") ∧
      (∀ q p, search_games q p (.success []) =
        "No games found matching \x27" ++ q ++ "\x27. Try a different search term.") ∧
      (∀ t p m, get_game_details t p (.httpStatusError 404 m) =
        "Game \x27" ++ t ++ "\x27 not found on Metacritic. Try searching first with search_games.") ∧
      (∀ t p c m, c ≠ 404 → get_game_details t p (.httpStatusError c m) =
        "Error fetching game details: HTTP " ++ toString c) ∧
      (∀ t p m, get_game_details t p (.transportError m) =
        "Error getting game details: " ++ m) ∧
      (∀ pf tp c m, get_top_games_by_platform pf tp (.httpStatusError c m) =
        "Error fetching top games: " ++ m) ∧
      (∀ pf tp m, get_top_games_by_platform pf tp (.transportError m) =
        "Error fetching top games: " ++ m) ∧
      (∀ pf ms c m, get_recent_releases pf ms (.httpStatusError c m) =
        "Error fetching recent releases: " ++ m) ∧
      (∀ pf ms m, get_recent_releases pf ms (.transportError m) =
        "Error fetching recent releases: " ++ m) := by
  refine ⟨fun q p m => rfl, fun q p c m => rfl, fun q p => rfl, fun t p m => rfl,
    fun t p c m hc => ?_, fun t p m => rfl, fun pf tp c m => rfl, fun pf tp m => rfl,
    fun pf ms c m => rfl, fun pf ms m => rfl⟩
  simp only [get_game_details]
  rw [if_neg hc]

/-- Closed witness for C1: the non-404 branch at a concrete status code. -/
theorem facade_failure_mapping_witness :
    get_game_details "x" "pc" (.httpStatusError 500 "boom") =
      "Error fetching game details: HTTP " ++ toString 500 :=
  facade_failure_mapping.2.2.2.2.1 "x" "pc" 500 "boom" (by decide)

/-- C2 (counterexample): `_parse_score` strips the non-digits of
`"93 / 100"` and parses the concatenation `"93100"`, so the claimed value 93
is wrong at this very input. -/
theorem parse_score_93_100_counterexample :
    _parse_score "93 / 100" = some 93100 ∧ (93100 : Int) ≠ 93 :=
  ⟨by decide, by decide⟩

/-- C2 (amended): for a non-sentinel text containing at least one digit,
`_parse_score` returns the integer formed by concatenating all its digits in
order — hence `_parse_score "93 / 100" = 93100`, not 93. -/
theorem parse_score_concatenates_digits :
    (∀ s : String, isSentinel s = false → s.data.filter isDigitChar ≠ [] →
        _parse_score s = some ((natOfDigits (s.data.filter isDigitChar) : Int))) ∧
      _parse_score "93 / 100" = some 93100 :=
  ⟨fun _ h1 h2 => parse_score_digits h1 h2, by decide⟩

/-- Closed witness for C2 at the spec's own example input. -/
theorem parse_score_concatenates_digits_witness :
    isSentinel "93 / 100" = false ∧
      _parse_score "93 / 100" =
        some ((natOfDigits ("93 / 100".data.filter isDigitChar) : Int)) :=
  ⟨by decide, parse_score_concatenates_digits.1 "93 / 100" (by decide) (by decide)⟩

/-- C3 (counterexample): a card whose score text parses to exactly 0 has a
known parsed score that is at least `min_score = 0`, yet the scan excludes
it, so inclusion is not equivalent to "score known and at least min_score". -/
theorem recent_zero_min_score_counterexample :
    (zeroCard.score?.bind _parse_score = some 0 ∧ (0 : Int) ≤ 0) ∧
      recentResults "all" 0 [zeroCard] = [] :=
  ⟨⟨by decide, by decide⟩, by decide⟩

/-- C3 (amended): the single-pass scan of `get_recent_releases` equals the
spec-shaped pipeline "extract the first 20 titled cards, then filter, then
keep order", where the filter keeps a card exactly when its parsed score is
known, nonzero, and at least `min_score`; for `min_score ≥ 1` that predicate
coincides with the claim's "known and at least min_score".  On the spec's
example scores [unknown, 60, 75, 90] with threshold 70, exactly the 75- and
90-records survive, in order, and even when twelve cards qualify only the
first 10 are rendered. -/
theorem recent_releases_filter_spec :
    (∀ (p : String) (ms : Int) (cards : List BrowseCard),
        recentResults p ms cards =
          ((specScan p cards).filter (specKeep ms)).map toRecent) ∧
      (∀ (ms : Int) (s : ScannedCard), 1 ≤ ms →
        (specKeep ms s = true ↔ ∃ sc, s.score = some sc ∧ ms ≤ sc)) ∧
      recentResults "all" 70 exampleCards =
        [{ title := "C", metascore := 75, release := "Recent", platform := "all" },
         { title := "D", metascore := 90, release := "Recent", platform := "all" }] ∧
      ((recentResults "all" 70 (List.replicate 12 card90)).take 10).length = 10 := by
  refine ⟨fun p ms cards => recent_filterMap_eq p ms _, fun ms s h => ?_,
    by decide, by decide⟩
  cases hsc : s.score with
  | none => simp [specKeep, hsc]
  | some sc =>
    simp only [specKeep, hsc, decide_eq_true_eq, Option.some.injEq]
    constructor
    · rintro ⟨h0, hle⟩
      exact ⟨sc, rfl, hle⟩
    · rintro ⟨sc2, hsc2, hle⟩
      subst hsc2
      exact ⟨by omega, hle⟩

/-- Closed witness for C3 at a concrete scanned card and threshold. -/
theorem recent_releases_filter_spec_witness :
    (1 : Int) ≤ 70 ∧
      (specKeep 70 scanEx = true ↔ ∃ sc, scanEx.score = some sc ∧ (70 : Int) ≤ sc) :=
  ⟨by decide, recent_releases_filter_spec.2.1 70 scanEx (by decide)⟩

/-- C4: `get_game_awards` is a total function (the embedding has no failing
branch): a year outside the table yields the descending list of the available
years 2018–2025 for any category; the category matcher is case-insensitive
substring containment in either direction (`subStr` is characterized as
genuine substring occurrence); `get_game_awards 2025 "Best RPG"` yields the
winner line for "Clair Obscur: Expedition 33"; and a category matching
nothing yields the list of valid category names for that year. -/
theorem game_awards_spec :
    (∀ (year : Int) (category : String), GAME_AWARDS_DATA.lookup year = none →
        get_game_awards year category =
          "Data not available for " ++ toString year ++
            ". Available years: 2025, 2024, 2023, 2022, 2021, 2020, 2019, 2018") ∧
      (∀ a b : List Char, subStr a b = true ↔ ∃ l1 l2, b = l1 ++ a ++ l2) ∧
      get_game_awards 2025 "Best RPG" =
        "🏆 The Game Awards 2025\nBest RPG: Clair Obscur: Expedition 33" ∧
      (∀ (year : Int) (category : String) (awards : List (String × String))
          (c w : String),
        GAME_AWARDS_DATA.lookup year = some awards → ¬(pyLower category = "all") →
        matchCategory (pyLower category) awards = some (c, w) →
        get_game_awards year category =
          "🏆 The Game Awards " ++ toString year ++ "\n" ++ c ++ ": " ++ w) ∧
      (∀ (year : Int) (category : String) (awards : List (String × String)),
        GAME_AWARDS_DATA.lookup year = some awards → ¬(pyLower category = "all") →
        matchCategory (pyLower category) awards = none →
        get_game_awards year category =
          "Category \x27" ++ category ++ "\x27 not found for " ++ toString year ++
            ".\n\nAvailable categories:\n" ++
            String.intercalate "\n" (awards.map (fun p => "  • " ++ p.1))) := by
  refine ⟨fun year category h => ?_, fun a b => subStr_iff, by decide,
    fun year category awards c w hlook hcat hmatch => ?_,
    fun year category awards hlook hcat hmatch => ?_⟩
  · simp only [get_game_awards, h]
    rw [show String.intercalate ", " ((sortDesc awardYears).map toString) =
          "2025, 2024, 2023, 2022, 2021, 2020, 2019, 2018" from by decide,
      String.append_assoc,
      show ". Available years: " ++ "2025, 2024, 2023, 2022, 2021, 2020, 2019, 2018" =
          ". Available years: 2025, 2024, 2023, 2022, 2021, 2020, 2019, 2018" from rfl]
  · simp only [get_game_awards, hlook, hmatch]
    rw [if_neg hcat]
  · simp only [get_game_awards, hlook, hmatch]
    rw [if_neg hcat]

/-- Closed witness for C4: the unknown-year message at 1999 and the
category-listing message at an unmatched category. -/
theorem game_awards_spec_witness :
    get_game_awards 1999 "all" =
        "Data not available for " ++ toString (1999 : Int) ++
          ". Available years: 2025, 2024, 2023, 2022, 2021, 2020, 2019, 2018" ∧
      get_game_awards 2025 "nonexistent-category" =
        "Category \x27" ++ "nonexistent-category" ++ "\x27 not found for " ++
          toString (2025 : Int) ++ ".\n\nAvailable categories:\n" ++
          String.intercalate "\n" (awards2025.map (fun p => "  • " ++ p.1)) :=
  ⟨game_awards_spec.1 1999 "all" (by decide),
   game_awards_spec.2.2.2.2 2025 "nonexistent-category" awards2025 rfl (by decide)
     (by decide)⟩

/-- C5 (counterexample): the parsers enforce no upper bounds — a critic text
of "999" yields 999 > 100 and a user text of "15.5" yields 15.5 > 10. -/
theorem score_bounds_counterexample :
    (_parse_score "999" = some 999 ∧ ¬((999 : Int) ≤ 100)) ∧
      (_parse_user_score "15.5" = some ((31 : Rat) / 2) ∧ ¬((31 : Rat) / 2 ≤ 10)) :=
  ⟨⟨by decide, by decide⟩, ⟨parse_user_15_5, by norm_num⟩⟩

/-- C5 (amended): a present critic score is a nonnegative integer (the digit
filter admits no sign), but neither parser clamps to the documented display
ranges: 999 and 15.5 are returned as-is. -/
theorem score_parse_value_ranges :
    (∀ (s : String) (n : Int), _parse_score s = some n → 0 ≤ n) ∧
      _parse_score "999" = some 999 ∧
      _parse_user_score "15.5" = some ((31 : Rat) / 2) :=
  ⟨fun _ _ h => parse_score_nonneg h, by decide, parse_user_15_5⟩

/-- Closed witness for C5's nonnegativity at a concrete parse. -/
theorem score_parse_value_ranges_witness :
    _parse_score "999" = some 999 ∧ (0 : Int) ≤ 999 :=
  ⟨by decide, score_parse_value_ranges.1 "999" 999 (by decide)⟩

/-- C6: the platform-browse URL builder emits the 1958–2025 year range for
"all-time", pins both year bounds to the period for "2022"/"2023"/"2024",
and emits the parameterless first-page URL for every other period value. -/
theorem browse_url_time_period_spec :
    (∀ p : String, browseUrl p "all-time" =
        "https://www.metacritic.com/browse/game/" ++ p ++
          "/all/all-time/metascore/?releaseYearMin=1958&releaseYearMax=2025&page=1") ∧
      (∀ p tp : String, tp = "2022" ∨ tp = "2023" ∨ tp = "2024" →
        browseUrl p tp =
          "https://www.metacritic.com/browse/game/" ++ p ++
            "/all/all-time/metascore/?releaseYearMin=" ++ tp ++
            "&releaseYearMax=" ++ tp ++ "&page=1") ∧
      (∀ p tp : String, tp ≠ "all-time" → tp ≠ "2022" → tp ≠ "2023" → tp ≠ "2024" →
        browseUrl p tp =
          "https://www.metacritic.com/browse/game/" ++ p ++
            "/all/all-time/metascore/?page=1") := by
  refine ⟨fun p => rfl, fun p tp h => ?_, fun p tp h1 h2 h3 h4 => ?_⟩
  · rcases h with rfl | rfl | rfl <;> rfl
  · unfold browseUrl
    rw [if_neg h1, if_neg (by rintro (h | h | h) <;> [exact h4 h; exact h3 h; exact h2 h])]

/-- Closed witness for C6 at a pinned year and at a fall-through period. -/
theorem browse_url_time_period_spec_witness :
    browseUrl "pc" "2023" =
        "https://www.metacritic.com/browse/game/" ++ "pc" ++
          "/all/all-time/metascore/?releaseYearMin=" ++ "2023" ++
          "&releaseYearMax=" ++ "2023" ++ "&page=1" ∧
      browseUrl "pc" "90-days" =
        "https://www.metacritic.com/browse/game/" ++ "pc" ++
          "/all/all-time/metascore/?page=1" :=
  ⟨browse_url_time_period_spec.2.1 "pc" "2023" (Or.inr (Or.inl rfl)),
   browse_url_time_period_spec.2.2 "pc" "90-days" (by decide) (by decide) (by decide)
     (by decide)⟩

/-- C7: the slug derivation of `get_game_details` is idempotent — its output
contains only `[a-z0-9-]`, never two adjacent hyphens, and no outer hyphen,
and every pipeline stage is the identity on such strings; in particular an
already-slugged title such as "the-witcher-3" is returned unchanged. -/
theorem slugify_idempotent :
    (∀ s : String, slugify (slugify s) = slugify s) ∧
      slugify "the-witcher-3" = "the-witcher-3" :=
  ⟨fun s => congrArg String.mk (slug_idem_chars s.data), by decide⟩

/-- C8: both score parsers are total (each returns a value or an explicit
`none` for every string — the embedding has no other outcome, mirroring the
source's catch-all conversion guards), and every case-insensitive sentinel
token ("", "tbd", "n/a" in any casing) yields `none` from both. -/
theorem parse_functions_total_and_sentinels :
    (∀ s : String, (pyLower s = "tbd" ∨ pyLower s = "n/a" ∨ pyLower s = "") →
        _parse_score s = none ∧ _parse_user_score s = none) ∧
      (∀ s : String, _parse_score s = none ∨ ∃ n, _parse_score s = some n) ∧
      (∀ s : String, _parse_user_score s = none ∨ ∃ q, _parse_user_score s = some q) := by
  refine ⟨fun s h => sentinel_parse h, fun s => ?_, fun s => ?_⟩
  · cases h : _parse_score s with
    | none => exact Or.inl rfl
    | some n => exact Or.inr ⟨n, rfl⟩
  · cases h : _parse_user_score s with
    | none => exact Or.inl rfl
    | some q => exact Or.inr ⟨q, rfl⟩

/-- Closed witness for C8 at the upper-case sentinel tokens. -/
theorem parse_functions_total_and_sentinels_witness :
    _parse_score "TBD" = none ∧ _parse_user_score "N/A" = none :=
  ⟨(parse_functions_total_and_sentinels.1 "TBD" (Or.inl (by decide))).1,
   (parse_functions_total_and_sentinels.1 "N/A" (Or.inr (Or.inl (by decide)))).2⟩

/-- C9: the `platform` argument influences neither `get_game_details` nor
`search_games`: with the same title/query and the same fetch outcome, two
runs differing only in `platform` return identical text, and the detail URL
is constructed from the title alone (the canonicalized platform code is
computed but never embedded in the path). -/
theorem platform_argument_noninterference :
    (∀ (t p1 p2 : String) (f : Fetch DetailPage),
        get_game_details t p1 f = get_game_details t p2 f) ∧
      (∀ (q p1 p2 : String) (f : Fetch (List SearchCard)),
        search_games q p1 f = search_games q p2 f) ∧
      (∀ t : String, detailUrl t =
        "https://www.metacritic.com/game/" ++ slugify t ++ "/") :=
  ⟨fun _ _ _ _ => rfl, fun _ _ _ _ => rfl, fun _ => rfl⟩

/-- C10: a parsed critic score of exactly 0 is handled like an unknown score
at each branch point: the recent-releases scan drops a score-0 card even for
a non-positive threshold, the detail formatter prints the TBD line exactly as
for an absent score, and a score-0 entry contributes nothing to the printed
top-games ranking. -/
theorem zero_score_treated_as_unknown :
    (∀ (ms : Int) (p : String) (card : BrowseCard), ms ≤ 0 →
        card.score?.bind _parse_score = some 0 → recentRecord? ms p card = none) ∧
      (detailScoreSection (some 0) = "⚪ Metascore: TBD\n" ∧
        detailScoreSection (some 0) = detailScoreSection none) ∧
      (∀ (i : Nat) (g : TopRecord), g.metascore = some 0 → topEntry i g = "") := by
  refine ⟨fun ms p card _ h => ?_, ⟨rfl, rfl⟩, fun i g h => ?_⟩
  · cases hti : card.title? with
    | none => simp [recentRecord?, hti]
    | some t => simp [recentRecord?, hti, h]
  · simp [topEntry, h, truthyInt]

/-- Closed witness for C10 at a concrete score-0 card and entry. -/
theorem zero_score_treated_as_unknown_witness :
    recentRecord? 0 "all" zeroCard = none ∧
      topEntry 1 { title := "Z", metascore := some 0, release := "r" } = "" :=
  ⟨zero_score_treated_as_unknown.1 0 "all" zeroCard (by decide) (by decide),
   zero_score_treated_as_unknown.2.2 1 { title := "Z", metascore := some 0, release := "r" } rfl⟩

end Metacritic
